import Mathlib

/-!
Verification of the Game-of-Life engine in `src/lib.rs` (`Universe` and its
methods) against its natural-language specification.

The Rust `FixedBitSet` cells buffer is modelled as a `List Bool`:
* `FixedBitSet::with_capacity(n)` is `List.replicate n false` (all bits dead);
* indexing `cells[idx]` (the `Index` impl, which is `contains` and returns
  `false` for an out-of-range index) is `List.getD idx false`;
* `cells.set(idx, v)` is `List.set idx v` (the Rust call aborts on an
  out-of-range index; the claims below only exercise in-range indices, which
  the two models agree on);
* `cells.toggle(idx)` is `List.set idx (!cells.getD idx false)` (same caveat);
* `cells.set_range(0..n, false)` is `setRangeFalse` below (the Rust call
  aborts when `n` exceeds the length; theorems that depend on the cleared
  range carry the in-range hypothesis);
* `cells.clone()` is the value itself (lists are immutable values here).

`u32` dimensions and indices are modelled as `Nat`; no arithmetic in the
modelled code paths wraps below `2^32` and all claims are stated over
in-range coordinates, where `u32` and `Nat` arithmetic agree.
-/

/-- `setRangeFalse l n` models `FixedBitSet::set_range(0..n, false)`:
the first `n` bits are cleared, the rest of the buffer is untouched. -/
def setRangeFalse : List Bool → Nat → List Bool
  | l, 0 => l
  | [], _ + 1 => []
  | _ :: l, n + 1 => false :: setRangeFalse l n

/-- `writeAll f l ps` models the loop `for i in ps { bits.set(i, f i) }`. -/
def writeAll (f : Nat → Bool) (l : List Bool) (ps : List Nat) : List Bool :=
  ps.foldl (fun acc i => acc.set i (f i)) l

/-- `ind p` is the 0/1 indicator of a decidable proposition. -/
def ind (p : Prop) [Decidable p] : Nat := if p then 1 else 0

/-- The `Universe` struct of `src/lib.rs`. -/
structure Universe where
  width : Nat
  height : Nat
  /-- Size of cells is `width * height` (doc comment of the Rust field). -/
  cells : List Bool
  /-- Initial state of cells. -/
  init_states : List Bool

namespace Universe

/-- `Universe::new(height, width)`: all cells dead (a fresh bitset of
capacity `width * height`), `init_states` a clone of `cells`. -/
def new (height width : Nat) : Universe :=
  { width := width
    height := height
    cells := List.replicate (width * height) false
    init_states := List.replicate (width * height) false }

/-- The deterministic seed of `Universe::new_fixed`: bit `i` is set iff
`i % 2 == 0 || i % 7 == 0`. -/
def fixedSeed (i : Nat) : Bool := decide (i % 2 = 0 ∨ i % 7 = 0)

/-- The cells buffer built by `Universe::new_fixed`: a bitset of capacity
`64 * 64` filled by the loop `for i in 0..size { cells.set(i, i % 2 == 0
|| i % 7 == 0) }`. -/
def fixedCells : List Bool :=
  writeAll fixedSeed (List.replicate (64 * 64) false) (List.range (64 * 64))

/-- `Universe::new_fixed()`: a 64×64 universe seeded with `fixedCells`,
`init_states` a clone of `cells`. -/
def new_fixed : Universe :=
  { width := 64
    height := 64
    cells := fixedCells
    init_states := fixedCells }

/-- The cells buffer built by `Universe::new_randomized`: the draw
`Math::random() >= 0.5` at loop index `i` is modelled by an injected
oracle `rnd : Nat → Bool`. -/
def randomCells (rnd : Nat → Bool) : List Bool :=
  writeAll rnd (List.replicate (64 * 64) false) (List.range (64 * 64))

/-- `Universe::new_randomized()`: a 64×64 universe seeded from the host
random source, `init_states` a clone of `cells`. -/
def new_randomized (rnd : Nat → Bool) : Universe :=
  { width := 64
    height := 64
    cells := randomCells rnd
    init_states := randomCells rnd }

/-- `Universe::reset_cells`: `set_range(0..width*height, false)` on the
current dimensions. -/
def reset_cells (u : Universe) : Universe :=
  { u with cells := setRangeFalse u.cells (u.width * u.height) }

/-- `Universe::set_width`: store the new width, then `reset_cells`. -/
def set_width (u : Universe) (width : Nat) : Universe :=
  reset_cells { u with width := width }

/-- `Universe::set_height`: store the new height, then `reset_cells`. -/
def set_height (u : Universe) (height : Nat) : Universe :=
  reset_cells { u with height := height }

/-- `Universe::reset_init_state`: `cells = init_states.clone()`. -/
def reset_init_state (u : Universe) : Universe :=
  { u with cells := u.init_states }

/-- `Universe::get_index`: `(row * self.width + column) as usize`. -/
def get_index (u : Universe) (row column : Nat) : Nat :=
  row * u.width + column

/-- `self.cells[idx]` (the `FixedBitSet` `Index` impl, i.e. `contains`,
which yields `false` out of range). -/
def getCell (u : Universe) (idx : Nat) : Bool :=
  u.cells.getD idx false

/-- `Universe::live_neighbor_count`, translated branch for branch: the
four wrapped coordinates are computed with conditionals (no modulo), and
the eight neighbor bits are summed as `u8` (`as u8` is `Bool.toNat`). -/
def live_neighbor_count (u : Universe) (row column : Nat) : Nat :=
  let north := if row = 0 then u.height - 1 else row - 1
  let south := if row = u.height - 1 then 0 else row + 1
  let west := if column = 0 then u.width - 1 else column - 1
  let east := if column = u.width - 1 then 0 else column + 1
  (u.getCell (u.get_index north west)).toNat
    + (u.getCell (u.get_index north column)).toNat
    + (u.getCell (u.get_index north east)).toNat
    + (u.getCell (u.get_index row west)).toNat
    + (u.getCell (u.get_index row east)).toNat
    + (u.getCell (u.get_index south west)).toNat
    + (u.getCell (u.get_index south column)).toNat
    + (u.getCell (u.get_index south east)).toNat

/-- The `match (cell, live_neighbors)` arm of `Universe::tick`:
live with fewer than 2 neighbors dies, live with more than 3 dies,
dead with exactly 3 is born, otherwise unchanged. -/
def nextState : Bool → Nat → Bool
  | true, n => if n < 2 then false else if n > 3 then false else true
  | false, n => if n = 3 then true else false

/-- `Universe::tick`: clone `cells` into `next`, then for every
`(row, col)` in row-major order set `next[idx]` from the pre-tick grid,
and finally replace `cells` by `next`. -/
def tick (u : Universe) : Universe :=
  { u with
    cells :=
      (List.range u.height).foldl
        (fun next row =>
          (List.range u.width).foldl
            (fun next col =>
              next.set (u.get_index row col)
                (nextState (u.getCell (u.get_index row col))
                  (u.live_neighbor_count row col)))
            next)
        u.cells }

/-- `Universe::toggle_cell`: `self.cells.toggle(self.get_index(row, column))`. -/
def toggle_cell (u : Universe) (row column : Nat) : Universe :=
  { u with
    cells := u.cells.set (u.get_index row column)
      (!u.cells.getD (u.get_index row column) false) }

/-- `Universe::set_cells`: for each `(row, col)` in the list, set that
cell alive. -/
def set_cells (u : Universe) (ps : List (Nat × Nat)) : Universe :=
  { u with
    cells := ps.foldl (fun cs p => cs.set (u.get_index p.1 p.2) true) u.cells }

/-- Reference neighbor count, modelled from the spec's words (§4.2 and
claim C3): sum, over the 8 offsets `(dr, dc)` in `{-1,0,1} × {-1,0,1}`
excluding `(0,0)`, the bit at
`((row + dr + height) mod height) * width + ((col + dc + width) mod width)`. -/
def refNeighborCount (u : Universe) (row col : Nat) : Nat :=
  ((([-1, 0, 1] : List Int).flatMap
      (fun dr => ([-1, 0, 1] : List Int).map (fun dc => (dr, dc)))).filter
    (fun p => decide (p ≠ ((0 : Int), (0 : Int))))).foldl
    (fun acc p =>
      acc + (u.getCell
        ((((row : Int) + p.1 + u.height) % (u.height : Int)).toNat * u.width
          + (((col : Int) + p.2 + u.width) % (u.width : Int)).toNat)).toNat)
    0

end Universe

/-- The value `Universe::tick` writes at linear index `idx`: the Conway
rule applied to the pre-tick cell and its pre-tick neighbor count, with
`(row, col) = (idx / width, idx % width)`. -/
def Universe.tickWrite (u : Universe) (idx : Nat) : Bool :=
  Universe.nextState (u.getCell idx)
    (u.live_neighbor_count (idx / u.width) (idx % u.width))

/-- The row-major list of linear indices `row * w + col` visited by the
double loop of `Universe::tick` over a `h × w` grid. -/
def gridIdx (h w : Nat) : List Nat :=
  (List.range h).flatMap (fun r => (List.range w).map (fun c => r * w + c))

/-- The horizontal blinker grid on a `h × w` torus: exactly the cells
`(r, c-1)`, `(r, c)`, `(r, c+1)` are alive. -/
def blinkerH (w h r c : Nat) : List Bool :=
  (List.range (w * h)).map
    (fun i => decide (i = r * w + (c - 1) ∨ i = r * w + c ∨ i = r * w + (c + 1)))

/-- The vertical blinker grid on a `h × w` torus: exactly the cells
`(r-1, c)`, `(r, c)`, `(r+1, c)` are alive. -/
def blinkerV (w h r c : Nat) : List Bool :=
  (List.range (w * h)).map
    (fun i => decide (i = (r - 1) * w + c ∨ i = r * w + c ∨ i = (r + 1) * w + c))

/-- The mutating operations listed in claim C4: `tick()`,
`toggle_cell(row, col)`, `set_cells(list)`, `reset_cells()`. -/
inductive MutOp where
  | tickOp : MutOp
  | toggleOp (row col : Nat) : MutOp
  | setCellsOp (ps : List (Nat × Nat)) : MutOp
  | resetCellsOp : MutOp

/-- Interpretation of a `MutOp` as the corresponding `Universe` method. -/
def applyMutOp (u : Universe) : MutOp → Universe
  | .tickOp => u.tick
  | .toggleOp row col => u.toggle_cell row col
  | .setCellsOp ps => u.set_cells ps
  | .resetCellsOp => u.reset_cells

/-- Every mutating operation of the engine (claims C9 and C10): the four
operations of `MutOp` plus `set_width`, `set_height` and
`reset_init_state`. -/
inductive AnyOp where
  | tickOp : AnyOp
  | toggleOp (row col : Nat) : AnyOp
  | setCellsOp (ps : List (Nat × Nat)) : AnyOp
  | resetCellsOp : AnyOp
  | setWidthOp (w : Nat) : AnyOp
  | setHeightOp (h : Nat) : AnyOp
  | resetInitOp : AnyOp

/-- Interpretation of an `AnyOp` as the corresponding `Universe` method. -/
def applyAnyOp (u : Universe) : AnyOp → Universe
  | .tickOp => u.tick
  | .toggleOp row col => u.toggle_cell row col
  | .setCellsOp ps => u.set_cells ps
  | .resetCellsOp => u.reset_cells
  | .setWidthOp w => u.set_width w
  | .setHeightOp h => u.set_height h
  | .resetInitOp => u.reset_init_state

section SanityChecks

example : (Universe.new 2 3).cells = [false, false, false, false, false, false] := by decide

example : (Universe.new 2 3).width = 3 ∧ (Universe.new 2 3).height = 2 := by decide

example : ((Universe.new 2 2).toggle_cell 0 1).cells = [false, true, false, false] := by decide

example : ((Universe.new 2 2).set_cells [(1, 0), (1, 1)]).cells = [false, false, true, true] := by
  decide

example :
    ((Universe.new 3 3).set_cells [(1, 0), (1, 1), (1, 2)]).tick.cells =
      [true, true, true, true, true, true, true, true, true] := by decide

example :
    ((Universe.new 3 3).set_cells [(1, 0), (1, 1), (1, 2)]).live_neighbor_count 0 0 = 3 := by
  decide

example :
    ((Universe.new 3 3).set_cells [(1, 0), (1, 1), (1, 2)]).refNeighborCount 0 0 = 3 := by
  decide

example :
    ((Universe.new 5 5).set_cells [(2, 1), (2, 2), (2, 3)]).tick.cells =
      ((Universe.new 5 5).set_cells [(1, 2), (2, 2), (3, 2)]).cells := by decide

example : ((Universe.new 2 2).set_width 1).cells.length = 4 := by decide

end SanityChecks

section ListLemmas

/-- Reading a `List.set` result: the written index if it was in range,
the old value everywhere else. -/
theorem getD_set (l : List Bool) (i j : Nat) (v : Bool) :
    (l.set i v).getD j false = if j = i ∧ i < l.length then v else l.getD j false := by
  induction l generalizing i j with
  | nil => simp
  | cons a l ih =>
    cases i with
    | zero =>
      cases j with
      | zero => simp
      | succ j => simp
    | succ i =>
      cases j with
      | zero => simp
      | succ j =>
        simp only [List.set_cons_succ, List.getD_cons_succ, ih, List.length_cons]
        by_cases h : j = i ∧ i < l.length
        · rw [if_pos h, if_pos (by omega : j + 1 = i + 1 ∧ i + 1 < l.length + 1)]
        · rw [if_neg h, if_neg (by omega : ¬(j + 1 = i + 1 ∧ i + 1 < l.length + 1))]

theorem length_setRangeFalse (l : List Bool) (n : Nat) :
    (setRangeFalse l n).length = l.length := by
  induction l generalizing n with
  | nil => cases n <;> rfl
  | cons a l ih =>
    cases n with
    | zero => rfl
    | succ n => simp [setRangeFalse, ih]

/-- Reading a cleared range: `false` on the cleared in-range indices,
the old value elsewhere. -/
theorem getD_setRangeFalse (l : List Bool) (n j : Nat) :
    (setRangeFalse l n).getD j false =
      if j < n ∧ j < l.length then false else l.getD j false := by
  induction l generalizing n j with
  | nil => cases n <;> simp [setRangeFalse]
  | cons a l ih =>
    cases n with
    | zero => simp [setRangeFalse]
    | succ n =>
      cases j with
      | zero => simp [setRangeFalse]
      | succ j =>
        simp only [setRangeFalse, List.getD_cons_succ, ih, List.length_cons]
        by_cases h : j < n ∧ j < l.length
        · rw [if_pos h, if_pos (by omega : j + 1 < n + 1 ∧ j + 1 < l.length + 1)]
        · rw [if_neg h, if_neg (by omega : ¬(j + 1 < n + 1 ∧ j + 1 < l.length + 1))]

theorem writeAll_nil (f : Nat → Bool) (l : List Bool) : writeAll f l [] = l := rfl

theorem writeAll_cons (f : Nat → Bool) (l : List Bool) (i : Nat) (ps : List Nat) :
    writeAll f l (i :: ps) = writeAll f (l.set i (f i)) ps := rfl

theorem length_writeAll (f : Nat → Bool) (ps : List Nat) (l : List Bool) :
    (writeAll f l ps).length = l.length := by
  induction ps generalizing l with
  | nil => rfl
  | cons i ps ih => rw [writeAll_cons, ih, List.length_set]

/-- Reading the result of a write loop: index `j` holds `f j` when `j` was
written in range, and the old value otherwise. -/
theorem getD_writeAll (f : Nat → Bool) (ps : List Nat) (l : List Bool) (j : Nat) :
    (writeAll f l ps).getD j false =
      if j ∈ ps ∧ j < l.length then f j else l.getD j false := by
  induction ps generalizing l with
  | nil => simp [writeAll_nil]
  | cons i ps ih =>
    rw [writeAll_cons, ih, List.length_set, getD_set]
    by_cases hj : j ∈ ps
    · by_cases hlen : j < l.length
      · simp [hj, hlen]
      · have h1 : ¬(j = i ∧ i < l.length) := fun h => hlen (h.1 ▸ h.2)
        simp [hj, hlen, h1]
    · by_cases hji : j = i
      · subst hji
        by_cases hlen : j < l.length
        · simp [hj, hlen]
        · simp [hj, hlen]
      · simp [hj, hji]

theorem foldl_flatMap {α β γ : Type} (g : α → List β) (f : γ → β → γ)
    (l : List α) (init : γ) :
    (l.flatMap g).foldl f init = l.foldl (fun acc a => (g a).foldl f acc) init := by
  induction l generalizing init with
  | nil => rfl
  | cons a l ih => simp [List.flatMap_cons, List.foldl_append, ih]

theorem mem_gridIdx (h w r c : Nat) (hr : r < h) (hc : c < w) :
    r * w + c ∈ gridIdx h w := by
  unfold gridIdx
  rw [List.mem_flatMap]
  exact ⟨r, List.mem_range.mpr hr, List.mem_map.mpr ⟨c, List.mem_range.mpr hc, rfl⟩⟩

theorem getD_map_range (f : Nat → Bool) (n i : Nat) (hi : i < n) :
    ((List.range n).map f).getD i false = f i := by
  rw [List.getD_eq_getElem?_getD, List.getElem?_map, List.getElem?_range hi]
  rfl

end ListLemmas

section IndexArithmetic

theorem index_lt (X Y w h : Nat) (hX : X < h) (hY : Y < w) : X * w + Y < w * h := by
  calc X * w + Y < X * w + w := by omega
  _ = (X + 1) * w := by ring
  _ ≤ h * w := Nat.mul_le_mul_right w hX
  _ = w * h := Nat.mul_comm h w

theorem index_div (w r c : Nat) (hc : c < w) : (r * w + c) / w = r := by
  have hw : 0 < w := Nat.lt_of_le_of_lt (Nat.zero_le c) hc
  rw [Nat.add_comm, Nat.mul_comm, Nat.add_mul_div_left c r hw, Nat.div_eq_of_lt hc]
  omega

theorem index_mod (w r c : Nat) (hc : c < w) : (r * w + c) % w = c := by
  rw [Nat.add_comm, Nat.mul_comm, Nat.add_mul_mod_self_left, Nat.mod_eq_of_lt hc]

theorem index_eq_iff (w r1 c1 r2 c2 : Nat) (h1 : c1 < w) (h2 : c2 < w) :
    r1 * w + c1 = r2 * w + c2 ↔ r1 = r2 ∧ c1 = c2 := by
  constructor
  · intro he
    have hr : r1 = r2 := by
      have := congrArg (· / w) he
      simpa [index_div w r1 c1 h1, index_div w r2 c2 h2] using this
    refine ⟨hr, ?_⟩
    subst hr
    omega
  · rintro ⟨rfl, rfl⟩
    rfl

end IndexArithmetic

section TickCharacterization

/-- The double loop of `tick` is the write loop `writeAll` over the
row-major index list, started from the clone of the pre-tick cells. -/
theorem tick_cells_eq_writeAll (u : Universe) :
    u.tick.cells = writeAll u.tickWrite u.cells (gridIdx u.height u.width) := by
  show (List.range u.height).foldl _ u.cells = _
  unfold writeAll gridIdx
  rw [foldl_flatMap]
  apply List.foldl_ext
  intro acc r _
  rw [List.foldl_map]
  apply List.foldl_ext
  intro acc' c hc
  have hcw : c < u.width := List.mem_range.mp hc
  show acc'.set (u.get_index r c)
      (Universe.nextState (u.getCell (u.get_index r c)) (u.live_neighbor_count r c)) =
    acc'.set (r * u.width + c) (u.tickWrite (r * u.width + c))
  unfold Universe.tickWrite Universe.get_index
  rw [index_div u.width r c hcw, index_mod u.width r c hcw]

theorem tick_cells_length (u : Universe) : u.tick.cells.length = u.cells.length := by
  rw [tick_cells_eq_writeAll, length_writeAll]

theorem tick_width (u : Universe) : u.tick.width = u.width := rfl

theorem tick_height (u : Universe) : u.tick.height = u.height := rfl

theorem tick_init_states (u : Universe) : u.tick.init_states = u.init_states := rfl

/-- Pointwise reading of the post-tick grid: every in-range linear index
holds the Conway rule applied to the pre-tick snapshot. -/
theorem tick_getD (u : Universe) (i : Nat) (hi : i < u.cells.length)
    (hsize : u.cells.length = u.width * u.height) :
    u.tick.cells.getD i false =
      Universe.nextState (u.getCell i)
        (u.live_neighbor_count (i / u.width) (i % u.width)) := by
  have hw : 0 < u.width := by
    rcases Nat.eq_zero_or_pos u.width with h | h
    · rw [h, Nat.zero_mul] at hsize
      omega
    · exact h
  have hi' : i < u.height * u.width := by
    rw [hsize, Nat.mul_comm] at hi
    exact hi
  have hr : i / u.width < u.height := (Nat.div_lt_iff_lt_mul hw).mpr hi'
  have hc : i % u.width < u.width := Nat.mod_lt _ hw
  have hdm : i / u.width * u.width + i % u.width = i := by
    rw [Nat.mul_comm]
    exact Nat.div_add_mod i u.width
  have hmem : i ∈ gridIdx u.height u.width :=
    hdm ▸ mem_gridIdx u.height u.width _ _ hr hc
  rw [tick_cells_eq_writeAll, getD_writeAll, if_pos ⟨hmem, hi⟩]
  rfl

end TickCharacterization

section FrameAndSnapshotClaims

/-- C2 counterexample: on a 2×2 universe, `set_width(1)` does not
reallocate the buffer, so `cells.len() == width * height` fails after the
call (the length stays 4 while the new dimensions give 1 * 2 = 2). -/
theorem C2_counterexample :
    ¬(((Universe.new 2 2).set_width 1).cells.length =
        ((Universe.new 2 2).set_width 1).width *
          ((Universe.new 2 2).set_width 1).height) := by
  decide

/-- C2 (amended): `set_width(w)` (resp. `set_height(h)`) updates the
dimension and clears the first new-`width * height` bits of the existing
buffer (which requires the new size not to exceed the buffer length —
otherwise the Rust `set_range` aborts), so every cell of the new
dimensions is dead; the buffer is not reallocated: its length is
unchanged, so `cells.len() == width * height` need not hold afterwards. -/
theorem C2_resize_clears (u : Universe) (w h : Nat)
    (hw : w * u.height ≤ u.cells.length) (hh : u.width * h ≤ u.cells.length) :
    (u.set_width w).width = w ∧ (u.set_width w).height = u.height ∧
      (u.set_width w).cells.length = u.cells.length ∧
      (∀ i, i < w * u.height → (u.set_width w).getCell i = false) ∧
      (u.set_height h).width = u.width ∧ (u.set_height h).height = h ∧
      (u.set_height h).cells.length = u.cells.length ∧
      (∀ i, i < u.width * h → (u.set_height h).getCell i = false) := by
  refine ⟨rfl, rfl, length_setRangeFalse _ _, ?_, rfl, rfl, length_setRangeFalse _ _, ?_⟩
  · intro i hi
    show (setRangeFalse u.cells (w * u.height)).getD i false = false
    rw [getD_setRangeFalse, if_pos ⟨hi, by omega⟩]
  · intro i hi
    show (setRangeFalse u.cells (u.width * h)).getD i false = false
    rw [getD_setRangeFalse, if_pos ⟨hi, by omega⟩]

theorem C2_resize_clears_witness :
    (((Universe.new 2 2).toggle_cell 0 0).set_width 1).cells.length =
        ((Universe.new 2 2).toggle_cell 0 0).cells.length ∧
      (((Universe.new 2 2).toggle_cell 0 0).set_width 1).getCell 0 = false ∧
      (((Universe.new 2 2).toggle_cell 0 0).set_width 1).cells =
        [false, false, false, false] :=
  ⟨(C2_resize_clears ((Universe.new 2 2).toggle_cell 0 0) 1 2 (by decide) (by decide)).2.2.1,
    (C2_resize_clears ((Universe.new 2 2).toggle_cell 0 0) 1 2 (by decide) (by decide)).2.2.2.1
      0 (by decide),
    by decide⟩

/-- Helper for C4: none of `tick`, `toggle_cell`, `set_cells`,
`reset_cells` touches `init_states`, so a fold of such operations
preserves it. -/
theorem foldl_applyMutOp_init_states (l : List MutOp) (v : Universe) :
    (l.foldl applyMutOp v).init_states = v.init_states := by
  induction l generalizing v with
  | nil => rfl
  | cons op l ih =>
    rw [List.foldl_cons, ih]
    cases op <;> rfl

/-- C4: starting from `new`, `new_fixed` or `new_randomized` and applying
any sequence of `tick`, `toggle_cell`, `set_cells`, `reset_cells`,
`reset_init_state()` restores the cells buffer to its construction-time
value bit for bit. -/
theorem C4_snapshot_roundtrip (a b : Nat) (rnd : Nat → Bool) (u0 : Universe)
    (h0 : u0 = Universe.new a b ∨ u0 = Universe.new_fixed ∨
      u0 = Universe.new_randomized rnd)
    (ops : List MutOp) :
    ((ops.foldl applyMutOp u0).reset_init_state).cells = u0.cells := by
  show (ops.foldl applyMutOp u0).init_states = u0.cells
  rw [foldl_applyMutOp_init_states]
  rcases h0 with rfl | rfl | rfl <;> rfl

theorem C4_snapshot_roundtrip_witness :
    (([MutOp.toggleOp 0 0, MutOp.tickOp].foldl applyMutOp
          (Universe.new 2 2)).reset_init_state).cells = (Universe.new 2 2).cells ∧
      ([MutOp.toggleOp 0 0].foldl applyMutOp
          (Universe.new 2 2)).cells ≠ (Universe.new 2 2).cells :=
  ⟨C4_snapshot_roundtrip 2 2 (fun _ => false) _ (Or.inl rfl) _, by decide⟩

/-- C5: for in-range `(row, col)` on a well-sized buffer, `toggle_cell`
flips exactly the bit at `row * width + col` and leaves every other bit
and the buffer length unchanged. -/
theorem C5_toggle_isolation (u : Universe) (row col : Nat)
    (hlen : u.cells.length = u.width * u.height)
    (hr : row < u.height) (hc : col < u.width) :
    (u.toggle_cell row col).getCell (u.get_index row col) =
        !(u.getCell (u.get_index row col)) ∧
      (∀ j, j ≠ u.get_index row col →
        (u.toggle_cell row col).getCell j = u.getCell j) ∧
      (u.toggle_cell row col).cells.length = u.cells.length := by
  have hidx : u.get_index row col < u.cells.length := by
    rw [hlen]
    exact index_lt row col u.width u.height hr hc
  refine ⟨?_, ?_, List.length_set _ _ _⟩
  · show (u.cells.set _ _).getD _ false = _
    rw [getD_set, if_pos ⟨rfl, hidx⟩]
    rfl
  · intro j hj
    show (u.cells.set _ _).getD j false = _
    rw [getD_set, if_neg (fun hcon => hj hcon.1)]
    rfl

theorem C5_toggle_isolation_witness :
    ((Universe.new 2 2).toggle_cell 1 0).getCell ((Universe.new 2 2).get_index 1 0) =
        !((Universe.new 2 2).getCell ((Universe.new 2 2).get_index 1 0)) ∧
      ((Universe.new 2 2).toggle_cell 1 0).cells = [false, false, true, false] :=
  ⟨(C5_toggle_isolation (Universe.new 2 2) 1 0 (by decide) (by decide) (by decide)).1,
    by decide⟩

/-- C6: `new_fixed()` is 64×64, cell `i` is alive iff
`i % 2 == 0 || i % 7 == 0`, and the initial snapshot equals the cells
buffer. -/
theorem C6_new_fixed_pattern :
    Universe.new_fixed.width = 64 ∧ Universe.new_fixed.height = 64 ∧
      (∀ i, i < 64 * 64 →
        Universe.new_fixed.getCell i = decide (i % 2 = 0 ∨ i % 7 = 0)) ∧
      Universe.new_fixed.init_states = Universe.new_fixed.cells := by
  refine ⟨rfl, rfl, ?_, rfl⟩
  intro i hi
  have hc : Universe.new_fixed.cells = writeAll Universe.fixedSeed
      (List.replicate (64 * 64) false) (List.range (64 * 64)) := by
    dsimp only [Universe.new_fixed]
    rfl
  show Universe.new_fixed.cells.getD i false = _
  rw [hc, getD_writeAll,
    if_pos ⟨List.mem_range.mpr hi, by rw [List.length_replicate]; exact hi⟩]
  rfl

theorem C6_new_fixed_pattern_witness :
    (Universe.new_fixed.getCell 7 = decide (7 % 2 = 0 ∨ 7 % 7 = 0)) ∧
      (decide ((7 : Nat) % 2 = 0 ∨ (7 : Nat) % 7 = 0)) = true ∧
      (decide ((5 : Nat) % 2 = 0 ∨ (5 : Nat) % 7 = 0)) = false :=
  ⟨C6_new_fixed_pattern.2.2.1 7 (by decide), by decide, by decide⟩

/-- C8: `tick()` is a function of `(width, height, cells)` alone — two
universes agreeing on those fields (whatever their snapshots) produce
bit-for-bit equal cells buffers after one tick. -/
theorem C8_tick_deterministic (u1 u2 : Universe) (hw : u1.width = u2.width)
    (hh : u1.height = u2.height) (hc : u1.cells = u2.cells) :
    u1.tick.cells = u2.tick.cells := by
  obtain ⟨w1, h1, c1, i1⟩ := u1
  obtain ⟨w2, h2, c2, i2⟩ := u2
  cases hw
  cases hh
  cases hc
  rfl

theorem C8_tick_deterministic_witness :
    (Universe.mk 2 2 [true, false, false, false] [true, true, true, true]).tick.cells =
        (Universe.mk 2 2 [true, false, false, false] []).tick.cells ∧
      (Universe.mk 2 2 [true, false, false, false] [true, true, true, true]).tick.cells =
        [false, false, false, false] :=
  ⟨C8_tick_deterministic _ _ rfl rfl rfl, by decide⟩

/-- C9: every mutating operation — `tick`, `toggle_cell`, `set_cells`,
`reset_cells`, `set_width`, `set_height`, `reset_init_state` — leaves the
`init_states` snapshot unchanged; only the constructors write it. -/
theorem C9_init_states_frame (u : Universe) :
    u.tick.init_states = u.init_states ∧
      (∀ row col, (u.toggle_cell row col).init_states = u.init_states) ∧
      (∀ ps, (u.set_cells ps).init_states = u.init_states) ∧
      u.reset_cells.init_states = u.init_states ∧
      (∀ w, (u.set_width w).init_states = u.init_states) ∧
      (∀ h, (u.set_height h).init_states = u.init_states) ∧
      u.reset_init_state.init_states = u.init_states :=
  ⟨rfl, fun _ _ => rfl, fun _ => rfl, rfl, fun _ => rfl, fun _ => rfl, rfl⟩

/-- Helper for C10: no operation whatsoever (including the resizing
setters and `reset_init_state`) touches `init_states`. -/
theorem foldl_applyAnyOp_init_states (l : List AnyOp) (v : Universe) :
    (l.foldl applyAnyOp v).init_states = v.init_states := by
  induction l generalizing v with
  | nil => rfl
  | cons op l ih =>
    rw [List.foldl_cons, ih]
    cases op <;> rfl

/-- C10: after any sequence of operations on a constructed universe,
`reset_init_state()` keeps the current width and height and installs a
cells buffer whose length is the construction-time `width * height`
(which can differ from the current `width * height` after a resize). -/
theorem C10_reset_init_length (a b : Nat) (rnd : Nat → Bool) (u0 : Universe)
    (h0 : u0 = Universe.new a b ∨ u0 = Universe.new_fixed ∨
      u0 = Universe.new_randomized rnd)
    (ops : List AnyOp) :
    ((ops.foldl applyAnyOp u0).reset_init_state).width =
        (ops.foldl applyAnyOp u0).width ∧
      ((ops.foldl applyAnyOp u0).reset_init_state).height =
        (ops.foldl applyAnyOp u0).height ∧
      ((ops.foldl applyAnyOp u0).reset_init_state).cells.length =
        u0.width * u0.height := by
  refine ⟨rfl, rfl, ?_⟩
  show (ops.foldl applyAnyOp u0).init_states.length = u0.width * u0.height
  rw [foldl_applyAnyOp_init_states]
  rcases h0 with rfl | rfl | rfl
  · exact List.length_replicate _ _
  · have hι : Universe.new_fixed.init_states = writeAll Universe.fixedSeed
        (List.replicate (64 * 64) false) (List.range (64 * 64)) := by
      dsimp only [Universe.new_fixed]
      rfl
    rw [hι, length_writeAll, List.length_replicate]
    rfl
  · have hι : (Universe.new_randomized rnd).init_states = writeAll rnd
        (List.replicate (64 * 64) false) (List.range (64 * 64)) := by
      dsimp only [Universe.new_randomized]
      rfl
    rw [hι, length_writeAll, List.length_replicate]
    rfl

theorem C10_reset_init_length_witness :
    (([AnyOp.setWidthOp 1].foldl applyAnyOp
          (Universe.new 2 2)).reset_init_state).cells.length = 4 ∧
      ([AnyOp.setWidthOp 1].foldl applyAnyOp (Universe.new 2 2)).width *
          ([AnyOp.setWidthOp 1].foldl applyAnyOp (Universe.new 2 2)).height = 2 :=
  ⟨(C10_reset_init_length 2 2 (fun _ => false) _ (Or.inl rfl) [AnyOp.setWidthOp 1]).2.2,
    by decide⟩

end FrameAndSnapshotClaims

section NeighborRefinement

/-- The spec's offset list `{-1,0,1} × {-1,0,1}` minus `(0,0)`, in the
order it is folded over. -/
theorem neighborOffsets_eval :
    ((([-1, 0, 1] : List Int).flatMap
        (fun dr => ([-1, 0, 1] : List Int).map (fun dc => (dr, dc)))).filter
      (fun p => decide (p ≠ ((0 : Int), (0 : Int))))) =
      [(-1, -1), (-1, 0), (-1, 1), (0, -1), (0, 1), (1, -1), (1, 0), (1, 1)] := by
  decide

/-- Wrapping one step up: `(i - 1 + n) mod n` is the conditional
`if i = 0 then n - 1 else i - 1` used by the Rust code. -/
theorem wrap_sub_one (n i : Nat) (hi : i < n) :
    (((i : Int) + -1 + (n : Int)) % (n : Int)).toNat = if i = 0 then n - 1 else i - 1 := by
  by_cases h : i = 0
  · subst h
    rw [if_pos rfl, show ((0 : Nat) : Int) + -1 + (n : Int) = (n : Int) - 1 by push_cast; ring,
      Int.emod_eq_of_lt (by omega) (by omega)]
    omega
  · rw [if_neg h, show (i : Int) + -1 + (n : Int) = ((i : Int) - 1) + (n : Int) * 1 by ring,
      Int.add_mul_emod_self_left, Int.emod_eq_of_lt (by omega) (by omega)]
    omega

/-- Wrapping one step down: `(i + 1 + n) mod n` is the conditional
`if i = n - 1 then 0 else i + 1` used by the Rust code. -/
theorem wrap_add_one (n i : Nat) (hi : i < n) :
    (((i : Int) + 1 + (n : Int)) % (n : Int)).toNat = if i = n - 1 then 0 else i + 1 := by
  by_cases h : i = n - 1
  · rw [if_pos h, show (i : Int) + 1 + (n : Int) = 0 + (n : Int) * 2 by
      have hi' : (i : Int) = (n : Int) - 1 := by omega
      rw [hi']; ring]
    rw [Int.add_mul_emod_self_left]
    rfl
  · rw [if_neg h, show (i : Int) + 1 + (n : Int) = ((i : Int) + 1) + (n : Int) * 1 by ring,
      Int.add_mul_emod_self_left, Int.emod_eq_of_lt (by omega) (by omega)]
    omega

theorem wrap_add_zero (n i : Nat) (hi : i < n) :
    (((i : Int) + 0 + (n : Int)) % (n : Int)).toNat = i := by
  rw [show (i : Int) + 0 + (n : Int) = (i : Int) + (n : Int) * 1 by ring,
    Int.add_mul_emod_self_left, Int.emod_eq_of_lt (by omega) (by omega)]
  omega

/-- The conditional-based neighbor count of the code equals the
modulus-based reference count of the spec, for every grid state and every
in-range cell. -/
theorem live_neighbor_count_eq_ref (u : Universe) (row col : Nat)
    (hr : row < u.height) (hc : col < u.width) :
    u.live_neighbor_count row col = u.refNeighborCount row col := by
  unfold Universe.refNeighborCount
  rw [neighborOffsets_eval]
  simp only [List.foldl_cons, List.foldl_nil]
  simp only [wrap_sub_one u.height row hr, wrap_add_one u.height row hr,
    wrap_add_zero u.height row hr, wrap_sub_one u.width col hc,
    wrap_add_one u.width col hc, wrap_add_zero u.width col hc]
  simp only [Universe.live_neighbor_count, Universe.get_index]
  omega

end NeighborRefinement

section NeighborClaims

/-- C3: for every grid state and in-range `(row, col)`,
`live_neighbor_count` equals the spec's reference sum over the 8 wrapped
offsets; the result is at most 8; and a live cell at
`(height-1, width-1)` is counted as a (diagonal) neighbor of `(0, 0)` and
vice versa. -/
theorem C3_neighbor_refinement (u : Universe) (hw : 1 ≤ u.width) (hh : 1 ≤ u.height)
    (row col : Nat) (hr : row < u.height) (hc : col < u.width) :
    u.live_neighbor_count row col = u.refNeighborCount row col ∧
      u.live_neighbor_count row col ≤ 8 ∧
      (u.getCell (u.get_index (u.height - 1) (u.width - 1)) = true →
        1 ≤ u.live_neighbor_count 0 0) ∧
      (u.getCell (u.get_index 0 0) = true →
        1 ≤ u.live_neighbor_count (u.height - 1) (u.width - 1)) := by
  refine ⟨live_neighbor_count_eq_ref u row col hr hc, ?_, ?_, ?_⟩
  · simp only [Universe.live_neighbor_count]
    have h1 := Bool.toNat_le (u.getCell (u.get_index
      (if row = 0 then u.height - 1 else row - 1)
      (if col = 0 then u.width - 1 else col - 1)))
    have h2 := Bool.toNat_le (u.getCell (u.get_index
      (if row = 0 then u.height - 1 else row - 1) col))
    have h3 := Bool.toNat_le (u.getCell (u.get_index
      (if row = 0 then u.height - 1 else row - 1)
      (if col = u.width - 1 then 0 else col + 1)))
    have h4 := Bool.toNat_le (u.getCell (u.get_index row
      (if col = 0 then u.width - 1 else col - 1)))
    have h5 := Bool.toNat_le (u.getCell (u.get_index row
      (if col = u.width - 1 then 0 else col + 1)))
    have h6 := Bool.toNat_le (u.getCell (u.get_index
      (if row = u.height - 1 then 0 else row + 1)
      (if col = 0 then u.width - 1 else col - 1)))
    have h7 := Bool.toNat_le (u.getCell (u.get_index
      (if row = u.height - 1 then 0 else row + 1) col))
    have h8 := Bool.toNat_le (u.getCell (u.get_index
      (if row = u.height - 1 then 0 else row + 1)
      (if col = u.width - 1 then 0 else col + 1)))
    omega
  · intro hcell
    simp only [Universe.live_neighbor_count, eq_self_iff_true, if_true]
    rw [hcell]
    simp only [Bool.toNat_true]
    omega
  · intro hcell
    simp only [Universe.live_neighbor_count, eq_self_iff_true, if_true]
    rw [hcell]
    simp only [Bool.toNat_true]
    omega

theorem C3_neighbor_refinement_witness :
    ((Universe.new 3 3).set_cells [(1, 0), (1, 1), (1, 2)]).live_neighbor_count 0 0 =
        ((Universe.new 3 3).set_cells [(1, 0), (1, 1), (1, 2)]).refNeighborCount 0 0 ∧
      ((Universe.new 3 3).set_cells [(1, 0), (1, 1), (1, 2)]).live_neighbor_count 0 0 = 3 :=
  ⟨(C3_neighbor_refinement _ (by decide) (by decide) 0 0 (by decide) (by decide)).1,
    by decide⟩

end NeighborClaims

section TickRuleClaim

/-- The match arm of `tick` written as the spec's rule: a live cell
survives exactly with 2 or 3 live neighbors, a dead cell is born exactly
with 3. -/
theorem nextState_spec (b : Bool) (n : Nat) :
    Universe.nextState b n = if b then decide (2 ≤ n ∧ n ≤ 3) else decide (n = 3) := by
  cases b
  · simp only [Universe.nextState, if_false, Bool.false_eq_true]
    by_cases h3 : n = 3 <;> simp [h3]
  · simp only [Universe.nextState, if_true, Bool.true_eq]
    by_cases h1 : n < 2
    · rw [if_pos h1]
      have : ¬(2 ≤ n ∧ n ≤ 3) := by omega
      simp [this]
    · rw [if_neg h1]
      by_cases h2 : n > 3
      · rw [if_pos h2]
        have : ¬(2 ≤ n ∧ n ≤ 3) := by omega
        simp [this]
      · rw [if_neg h2]
        have : 2 ≤ n ∧ n ≤ 3 := by omega
        simp [this]

/-- C1: on a well-sized universe, one `tick()` writes at every in-range
cell `(row, col)` exactly the Conway rule evaluated on the pre-tick grid
(live cells survive iff they have 2 or 3 live neighbors, dead cells are
born iff they have exactly 3); the right-hand side reads only the
pre-tick universe `u`, so no transition observes an already-updated next
state. -/
theorem C1_tick_rule (u : Universe) (hlen : u.cells.length = u.width * u.height)
    (hw : 1 ≤ u.width) (hh : 1 ≤ u.height) (row col : Nat)
    (hr : row < u.height) (hc : col < u.width) :
    u.tick.getCell (u.get_index row col) =
      if u.getCell (u.get_index row col)
        then decide (2 ≤ u.live_neighbor_count row col ∧
          u.live_neighbor_count row col ≤ 3)
        else decide (u.live_neighbor_count row col = 3) := by
  have hidx : u.get_index row col < u.cells.length := by
    rw [hlen]
    exact index_lt row col u.width u.height hr hc
  show u.tick.cells.getD (u.get_index row col) false = _
  rw [tick_getD u _ hidx hlen]
  show Universe.nextState (u.getCell (row * u.width + col))
      (u.live_neighbor_count ((row * u.width + col) / u.width)
        ((row * u.width + col) % u.width)) = _
  rw [index_div u.width row col hc, index_mod u.width row col hc, nextState_spec]
  rfl

theorem C1_tick_rule_witness :
    ((Universe.new 3 3).set_cells [(1, 0), (1, 1), (1, 2)]).tick.getCell
        (((Universe.new 3 3).set_cells [(1, 0), (1, 1), (1, 2)]).get_index 0 1) =
      (if ((Universe.new 3 3).set_cells [(1, 0), (1, 1), (1, 2)]).getCell
            (((Universe.new 3 3).set_cells [(1, 0), (1, 1), (1, 2)]).get_index 0 1)
        then decide
          (2 ≤ ((Universe.new 3 3).set_cells [(1, 0), (1, 1), (1, 2)]).live_neighbor_count 0 1 ∧
            ((Universe.new 3 3).set_cells [(1, 0), (1, 1), (1, 2)]).live_neighbor_count 0 1 ≤ 3)
        else decide
          (((Universe.new 3 3).set_cells [(1, 0), (1, 1), (1, 2)]).live_neighbor_count 0 1 = 3)) :=
  C1_tick_rule ((Universe.new 3 3).set_cells [(1, 0), (1, 1), (1, 2)])
    (by decide) (by decide) (by decide) 0 1 (by decide) (by decide)

end TickRuleClaim

section BlinkerMachinery

theorem ind_congr (p q : Prop) [Decidable p] [Decidable q] (h : p ↔ q) :
    ind p = ind q := by
  unfold ind
  by_cases hq : q
  · rw [if_pos (h.mpr hq), if_pos hq]
  · rw [if_neg (fun hp => hq (h.mp hp)), if_neg hq]

theorem toNat_decide_ind (p q : Prop) [Decidable p] [Decidable q] (h : p ↔ q) :
    (decide p).toNat = ind q := by
  unfold ind
  by_cases hq : q
  · simp [hq, h]
  · simp [hq, h]

theorem index_coords_iff (w i a b : Nat) (hb : b < w) :
    i = a * w + b ↔ (i / w = a ∧ i % w = b) := by
  constructor
  · rintro rfl
    exact ⟨index_div w a b hb, index_mod w a b hb⟩
  · rintro ⟨h1, h2⟩
    have h3 : w * (i / w) + i % w = i := Nat.div_add_mod i w
    rw [h1, h2, Nat.mul_comm] at h3
    exact h3.symm

/-- Closed form of `live_neighbor_count` on a grid whose only live cells
are three cells `(a1,b1)`, `(a2,b2)`, `(a3,b3)`, all at least one step
away from every edge: each of the eight neighbor positions contributes 1
exactly when it coincides with one of the three live cells, and the
wrapped coordinate conditionals reduce to plain offset equations. -/
theorem lnc_three (u : Universe) (a1 b1 a2 b2 a3 b3 rr cc : Nat)
    (ha1 : 1 ≤ a1) (ha1' : a1 + 1 < u.height) (hb1 : 1 ≤ b1) (hb1' : b1 + 1 < u.width)
    (ha2 : 1 ≤ a2) (ha2' : a2 + 1 < u.height) (hb2 : 1 ≤ b2) (hb2' : b2 + 1 < u.width)
    (ha3 : 1 ≤ a3) (ha3' : a3 + 1 < u.height) (hb3 : 1 ≤ b3) (hb3' : b3 + 1 < u.width)
    (hrr : rr < u.height) (hcc : cc < u.width)
    (hcells : ∀ j, j < u.width * u.height →
      u.getCell j = decide (j = a1 * u.width + b1 ∨ j = a2 * u.width + b2 ∨
        j = a3 * u.width + b3)) :
    u.live_neighbor_count rr cc =
      ind ((rr = a1 + 1 ∧ cc = b1 + 1) ∨ (rr = a2 + 1 ∧ cc = b2 + 1) ∨
          (rr = a3 + 1 ∧ cc = b3 + 1)) +
        ind ((rr = a1 + 1 ∧ cc = b1) ∨ (rr = a2 + 1 ∧ cc = b2) ∨
          (rr = a3 + 1 ∧ cc = b3)) +
        ind ((rr = a1 + 1 ∧ cc + 1 = b1) ∨ (rr = a2 + 1 ∧ cc + 1 = b2) ∨
          (rr = a3 + 1 ∧ cc + 1 = b3)) +
        ind ((rr = a1 ∧ cc = b1 + 1) ∨ (rr = a2 ∧ cc = b2 + 1) ∨
          (rr = a3 ∧ cc = b3 + 1)) +
        ind ((rr = a1 ∧ cc + 1 = b1) ∨ (rr = a2 ∧ cc + 1 = b2) ∨
          (rr = a3 ∧ cc + 1 = b3)) +
        ind ((rr + 1 = a1 ∧ cc = b1 + 1) ∨ (rr + 1 = a2 ∧ cc = b2 + 1) ∨
          (rr + 1 = a3 ∧ cc = b3 + 1)) +
        ind ((rr + 1 = a1 ∧ cc = b1) ∨ (rr + 1 = a2 ∧ cc = b2) ∨
          (rr + 1 = a3 ∧ cc = b3)) +
        ind ((rr + 1 = a1 ∧ cc + 1 = b1) ∨ (rr + 1 = a2 ∧ cc + 1 = b2) ∨
          (rr + 1 = a3 ∧ cc + 1 = b3)) := by
  have hh0 : 0 < u.height := by omega
  have hw0 : 0 < u.width := by omega
  have hNlt : (if rr = 0 then u.height - 1 else rr - 1) < u.height := by split <;> omega
  have hSlt : (if rr = u.height - 1 then 0 else rr + 1) < u.height := by split <;> omega
  have hWlt : (if cc = 0 then u.width - 1 else cc - 1) < u.width := by split <;> omega
  have hElt : (if cc = u.width - 1 then 0 else cc + 1) < u.width := by split <;> omega
  have hNiff : ∀ a : Nat, 1 ≤ a → a + 1 < u.height →
      ((if rr = 0 then u.height - 1 else rr - 1) = a ↔ rr = a + 1) := by
    intro a h1 h2
    split <;> omega
  have hSiff : ∀ a : Nat, 1 ≤ a → a + 1 < u.height →
      ((if rr = u.height - 1 then 0 else rr + 1) = a ↔ rr + 1 = a) := by
    intro a h1 h2
    split <;> omega
  have hWiff : ∀ b : Nat, 1 ≤ b → b + 1 < u.width →
      ((if cc = 0 then u.width - 1 else cc - 1) = b ↔ cc = b + 1) := by
    intro b h1 h2
    split <;> omega
  have hEiff : ∀ b : Nat, 1 ≤ b → b + 1 < u.width →
      ((if cc = u.width - 1 then 0 else cc + 1) = b ↔ cc + 1 = b) := by
    intro b h1 h2
    split <;> omega
  have eNW : (u.getCell ((if rr = 0 then u.height - 1 else rr - 1) * u.width +
      (if cc = 0 then u.width - 1 else cc - 1))).toNat =
      ind ((rr = a1 + 1 ∧ cc = b1 + 1) ∨ (rr = a2 + 1 ∧ cc = b2 + 1) ∨
        (rr = a3 + 1 ∧ cc = b3 + 1)) := by
    rw [hcells _ (index_lt _ _ _ _ hNlt hWlt)]
    exact toNat_decide_ind _ _ (or_congr
      ((index_eq_iff u.width _ _ a1 b1 hWlt (by omega)).trans
        (and_congr (hNiff a1 ha1 ha1') (hWiff b1 hb1 hb1')))
      (or_congr
        ((index_eq_iff u.width _ _ a2 b2 hWlt (by omega)).trans
          (and_congr (hNiff a2 ha2 ha2') (hWiff b2 hb2 hb2')))
        ((index_eq_iff u.width _ _ a3 b3 hWlt (by omega)).trans
          (and_congr (hNiff a3 ha3 ha3') (hWiff b3 hb3 hb3')))))
  have eN : (u.getCell ((if rr = 0 then u.height - 1 else rr - 1) * u.width + cc)).toNat =
      ind ((rr = a1 + 1 ∧ cc = b1) ∨ (rr = a2 + 1 ∧ cc = b2) ∨
        (rr = a3 + 1 ∧ cc = b3)) := by
    rw [hcells _ (index_lt _ _ _ _ hNlt hcc)]
    exact toNat_decide_ind _ _ (or_congr
      ((index_eq_iff u.width _ _ a1 b1 hcc (by omega)).trans
        (and_congr (hNiff a1 ha1 ha1') Iff.rfl))
      (or_congr
        ((index_eq_iff u.width _ _ a2 b2 hcc (by omega)).trans
          (and_congr (hNiff a2 ha2 ha2') Iff.rfl))
        ((index_eq_iff u.width _ _ a3 b3 hcc (by omega)).trans
          (and_congr (hNiff a3 ha3 ha3') Iff.rfl))))
  have eNE : (u.getCell ((if rr = 0 then u.height - 1 else rr - 1) * u.width +
      (if cc = u.width - 1 then 0 else cc + 1))).toNat =
      ind ((rr = a1 + 1 ∧ cc + 1 = b1) ∨ (rr = a2 + 1 ∧ cc + 1 = b2) ∨
        (rr = a3 + 1 ∧ cc + 1 = b3)) := by
    rw [hcells _ (index_lt _ _ _ _ hNlt hElt)]
    exact toNat_decide_ind _ _ (or_congr
      ((index_eq_iff u.width _ _ a1 b1 hElt (by omega)).trans
        (and_congr (hNiff a1 ha1 ha1') (hEiff b1 hb1 hb1')))
      (or_congr
        ((index_eq_iff u.width _ _ a2 b2 hElt (by omega)).trans
          (and_congr (hNiff a2 ha2 ha2') (hEiff b2 hb2 hb2')))
        ((index_eq_iff u.width _ _ a3 b3 hElt (by omega)).trans
          (and_congr (hNiff a3 ha3 ha3') (hEiff b3 hb3 hb3')))))
  have eW : (u.getCell (rr * u.width + (if cc = 0 then u.width - 1 else cc - 1))).toNat =
      ind ((rr = a1 ∧ cc = b1 + 1) ∨ (rr = a2 ∧ cc = b2 + 1) ∨
        (rr = a3 ∧ cc = b3 + 1)) := by
    rw [hcells _ (index_lt _ _ _ _ hrr hWlt)]
    exact toNat_decide_ind _ _ (or_congr
      ((index_eq_iff u.width _ _ a1 b1 hWlt (by omega)).trans
        (and_congr Iff.rfl (hWiff b1 hb1 hb1')))
      (or_congr
        ((index_eq_iff u.width _ _ a2 b2 hWlt (by omega)).trans
          (and_congr Iff.rfl (hWiff b2 hb2 hb2')))
        ((index_eq_iff u.width _ _ a3 b3 hWlt (by omega)).trans
          (and_congr Iff.rfl (hWiff b3 hb3 hb3')))))
  have eE : (u.getCell (rr * u.width + (if cc = u.width - 1 then 0 else cc + 1))).toNat =
      ind ((rr = a1 ∧ cc + 1 = b1) ∨ (rr = a2 ∧ cc + 1 = b2) ∨
        (rr = a3 ∧ cc + 1 = b3)) := by
    rw [hcells _ (index_lt _ _ _ _ hrr hElt)]
    exact toNat_decide_ind _ _ (or_congr
      ((index_eq_iff u.width _ _ a1 b1 hElt (by omega)).trans
        (and_congr Iff.rfl (hEiff b1 hb1 hb1')))
      (or_congr
        ((index_eq_iff u.width _ _ a2 b2 hElt (by omega)).trans
          (and_congr Iff.rfl (hEiff b2 hb2 hb2')))
        ((index_eq_iff u.width _ _ a3 b3 hElt (by omega)).trans
          (and_congr Iff.rfl (hEiff b3 hb3 hb3')))))
  have eSW : (u.getCell ((if rr = u.height - 1 then 0 else rr + 1) * u.width +
      (if cc = 0 then u.width - 1 else cc - 1))).toNat =
      ind ((rr + 1 = a1 ∧ cc = b1 + 1) ∨ (rr + 1 = a2 ∧ cc = b2 + 1) ∨
        (rr + 1 = a3 ∧ cc = b3 + 1)) := by
    rw [hcells _ (index_lt _ _ _ _ hSlt hWlt)]
    exact toNat_decide_ind _ _ (or_congr
      ((index_eq_iff u.width _ _ a1 b1 hWlt (by omega)).trans
        (and_congr (hSiff a1 ha1 ha1') (hWiff b1 hb1 hb1')))
      (or_congr
        ((index_eq_iff u.width _ _ a2 b2 hWlt (by omega)).trans
          (and_congr (hSiff a2 ha2 ha2') (hWiff b2 hb2 hb2')))
        ((index_eq_iff u.width _ _ a3 b3 hWlt (by omega)).trans
          (and_congr (hSiff a3 ha3 ha3') (hWiff b3 hb3 hb3')))))
  have eS : (u.getCell ((if rr = u.height - 1 then 0 else rr + 1) * u.width + cc)).toNat =
      ind ((rr + 1 = a1 ∧ cc = b1) ∨ (rr + 1 = a2 ∧ cc = b2) ∨
        (rr + 1 = a3 ∧ cc = b3)) := by
    rw [hcells _ (index_lt _ _ _ _ hSlt hcc)]
    exact toNat_decide_ind _ _ (or_congr
      ((index_eq_iff u.width _ _ a1 b1 hcc (by omega)).trans
        (and_congr (hSiff a1 ha1 ha1') Iff.rfl))
      (or_congr
        ((index_eq_iff u.width _ _ a2 b2 hcc (by omega)).trans
          (and_congr (hSiff a2 ha2 ha2') Iff.rfl))
        ((index_eq_iff u.width _ _ a3 b3 hcc (by omega)).trans
          (and_congr (hSiff a3 ha3 ha3') Iff.rfl))))
  have eSE : (u.getCell ((if rr = u.height - 1 then 0 else rr + 1) * u.width +
      (if cc = u.width - 1 then 0 else cc + 1))).toNat =
      ind ((rr + 1 = a1 ∧ cc + 1 = b1) ∨ (rr + 1 = a2 ∧ cc + 1 = b2) ∨
        (rr + 1 = a3 ∧ cc + 1 = b3)) := by
    rw [hcells _ (index_lt _ _ _ _ hSlt hElt)]
    exact toNat_decide_ind _ _ (or_congr
      ((index_eq_iff u.width _ _ a1 b1 hElt (by omega)).trans
        (and_congr (hSiff a1 ha1 ha1') (hEiff b1 hb1 hb1')))
      (or_congr
        ((index_eq_iff u.width _ _ a2 b2 hElt (by omega)).trans
          (and_congr (hSiff a2 ha2 ha2') (hEiff b2 hb2 hb2')))
        ((index_eq_iff u.width _ _ a3 b3 hElt (by omega)).trans
          (and_congr (hSiff a3 ha3 ha3') (hEiff b3 hb3 hb3')))))
  simp only [Universe.live_neighbor_count, Universe.get_index]
  rw [eNW, eN, eNE, eW, eE, eSW, eS, eSE]

end BlinkerMachinery

section BlinkerTick

/-- The Conway step at a cell whose clamped offsets from the blinker
center are `(er, ec)` (3 means "same row/column as the center"), for the
horizontal blinker: the finite table of all 64 offset combinations. -/
theorem offsets_stepH (er ec : Nat) (h1 : er < 8) (h2 : ec < 8) :
    Universe.nextState (decide (er = 3 ∧ ec = 2 ∨ er = 3 ∧ ec = 3 ∨ er = 3 ∧ ec = 4))
      (ind (er = 4 ∧ ec = 3 ∨ er = 4 ∧ ec = 4 ∨ er = 4 ∧ ec = 5) +
        ind (er = 4 ∧ ec = 2 ∨ er = 4 ∧ ec = 3 ∨ er = 4 ∧ ec = 4) +
        ind (er = 4 ∧ ec = 1 ∨ er = 4 ∧ ec = 2 ∨ er = 4 ∧ ec = 3) +
        ind (er = 3 ∧ ec = 3 ∨ er = 3 ∧ ec = 4 ∨ er = 3 ∧ ec = 5) +
        ind (er = 3 ∧ ec = 1 ∨ er = 3 ∧ ec = 2 ∨ er = 3 ∧ ec = 3) +
        ind (er = 2 ∧ ec = 3 ∨ er = 2 ∧ ec = 4 ∨ er = 2 ∧ ec = 5) +
        ind (er = 2 ∧ ec = 2 ∨ er = 2 ∧ ec = 3 ∨ er = 2 ∧ ec = 4) +
        ind (er = 2 ∧ ec = 1 ∨ er = 2 ∧ ec = 2 ∨ er = 2 ∧ ec = 3)) =
    decide (er = 2 ∧ ec = 3 ∨ er = 3 ∧ ec = 3 ∨ er = 4 ∧ ec = 3) := by
  revert h2
  revert ec
  revert h1
  revert er
  decide

/-- The same finite table for the vertical blinker. -/
theorem offsets_stepV (er ec : Nat) (h1 : er < 8) (h2 : ec < 8) :
    Universe.nextState (decide (er = 2 ∧ ec = 3 ∨ er = 3 ∧ ec = 3 ∨ er = 4 ∧ ec = 3))
      (ind (er = 3 ∧ ec = 4 ∨ er = 4 ∧ ec = 4 ∨ er = 5 ∧ ec = 4) +
        ind (er = 3 ∧ ec = 3 ∨ er = 4 ∧ ec = 3 ∨ er = 5 ∧ ec = 3) +
        ind (er = 3 ∧ ec = 2 ∨ er = 4 ∧ ec = 2 ∨ er = 5 ∧ ec = 2) +
        ind (er = 2 ∧ ec = 4 ∨ er = 3 ∧ ec = 4 ∨ er = 4 ∧ ec = 4) +
        ind (er = 2 ∧ ec = 2 ∨ er = 3 ∧ ec = 2 ∨ er = 4 ∧ ec = 2) +
        ind (er = 1 ∧ ec = 4 ∨ er = 2 ∧ ec = 4 ∨ er = 3 ∧ ec = 4) +
        ind (er = 1 ∧ ec = 3 ∨ er = 2 ∧ ec = 3 ∨ er = 3 ∧ ec = 3) +
        ind (er = 1 ∧ ec = 2 ∨ er = 2 ∧ ec = 2 ∨ er = 3 ∧ ec = 2)) =
    decide (er = 3 ∧ ec = 2 ∨ er = 3 ∧ ec = 3 ∨ er = 3 ∧ ec = 4) := by
  revert h2
  revert ec
  revert h1
  revert er
  decide

/-- The Conway step for a cell `(R, C)` of the horizontal-blinker grid,
stated over plain coordinates: the neighbor-count indicators are those of
`lnc_three` at the triple `(r, c-1), (r, c), (r, c+1)`. -/
theorem blinkerH_step (r c R C : Nat) (hr2 : 2 ≤ r) (hc2 : 2 ≤ c) :
    Universe.nextState
      (decide ((R = r ∧ C = c - 1) ∨ (R = r ∧ C = c) ∨ (R = r ∧ C = c + 1)))
      (ind ((R = r + 1 ∧ C = c - 1 + 1) ∨ (R = r + 1 ∧ C = c + 1) ∨ (R = r + 1 ∧ C = c + 1 + 1)) +
        ind ((R = r + 1 ∧ C = c - 1) ∨ (R = r + 1 ∧ C = c) ∨ (R = r + 1 ∧ C = c + 1)) +
        ind ((R = r + 1 ∧ C + 1 = c - 1) ∨ (R = r + 1 ∧ C + 1 = c) ∨ (R = r + 1 ∧ C + 1 = c + 1)) +
        ind ((R = r ∧ C = c - 1 + 1) ∨ (R = r ∧ C = c + 1) ∨ (R = r ∧ C = c + 1 + 1)) +
        ind ((R = r ∧ C + 1 = c - 1) ∨ (R = r ∧ C + 1 = c) ∨ (R = r ∧ C + 1 = c + 1)) +
        ind ((R + 1 = r ∧ C = c - 1 + 1) ∨ (R + 1 = r ∧ C = c + 1) ∨ (R + 1 = r ∧ C = c + 1 + 1)) +
        ind ((R + 1 = r ∧ C = c - 1) ∨ (R + 1 = r ∧ C = c) ∨ (R + 1 = r ∧ C = c + 1)) +
        ind ((R + 1 = r ∧ C + 1 = c - 1) ∨ (R + 1 = r ∧ C + 1 = c) ∨ (R + 1 = r ∧ C + 1 = c + 1))) =
    decide ((R = r - 1 ∧ C = c) ∨ (R = r ∧ C = c) ∨ (R = r + 1 ∧ C = c)) := by
  rw [ind_congr ((R = r + 1 ∧ C = c - 1 + 1) ∨ (R = r + 1 ∧ C = c + 1) ∨ (R = r + 1 ∧ C = c + 1 + 1))
      (min (R + 3 - r) 7 = 4 ∧ min (C + 3 - c) 7 = 3 ∨ min (R + 3 - r) 7 = 4 ∧ min (C + 3 - c) 7 = 4 ∨
        min (R + 3 - r) 7 = 4 ∧ min (C + 3 - c) 7 = 5) (by omega)]
  rw [ind_congr ((R = r + 1 ∧ C = c - 1) ∨ (R = r + 1 ∧ C = c) ∨ (R = r + 1 ∧ C = c + 1))
      (min (R + 3 - r) 7 = 4 ∧ min (C + 3 - c) 7 = 2 ∨ min (R + 3 - r) 7 = 4 ∧ min (C + 3 - c) 7 = 3 ∨
        min (R + 3 - r) 7 = 4 ∧ min (C + 3 - c) 7 = 4) (by omega)]
  rw [ind_congr ((R = r + 1 ∧ C + 1 = c - 1) ∨ (R = r + 1 ∧ C + 1 = c) ∨ (R = r + 1 ∧ C + 1 = c + 1))
      (min (R + 3 - r) 7 = 4 ∧ min (C + 3 - c) 7 = 1 ∨ min (R + 3 - r) 7 = 4 ∧ min (C + 3 - c) 7 = 2 ∨
        min (R + 3 - r) 7 = 4 ∧ min (C + 3 - c) 7 = 3) (by omega)]
  rw [ind_congr ((R = r ∧ C = c - 1 + 1) ∨ (R = r ∧ C = c + 1) ∨ (R = r ∧ C = c + 1 + 1))
      (min (R + 3 - r) 7 = 3 ∧ min (C + 3 - c) 7 = 3 ∨ min (R + 3 - r) 7 = 3 ∧ min (C + 3 - c) 7 = 4 ∨
        min (R + 3 - r) 7 = 3 ∧ min (C + 3 - c) 7 = 5) (by omega)]
  rw [ind_congr ((R = r ∧ C + 1 = c - 1) ∨ (R = r ∧ C + 1 = c) ∨ (R = r ∧ C + 1 = c + 1))
      (min (R + 3 - r) 7 = 3 ∧ min (C + 3 - c) 7 = 1 ∨ min (R + 3 - r) 7 = 3 ∧ min (C + 3 - c) 7 = 2 ∨
        min (R + 3 - r) 7 = 3 ∧ min (C + 3 - c) 7 = 3) (by omega)]
  rw [ind_congr ((R + 1 = r ∧ C = c - 1 + 1) ∨ (R + 1 = r ∧ C = c + 1) ∨ (R + 1 = r ∧ C = c + 1 + 1))
      (min (R + 3 - r) 7 = 2 ∧ min (C + 3 - c) 7 = 3 ∨ min (R + 3 - r) 7 = 2 ∧ min (C + 3 - c) 7 = 4 ∨
        min (R + 3 - r) 7 = 2 ∧ min (C + 3 - c) 7 = 5) (by omega)]
  rw [ind_congr ((R + 1 = r ∧ C = c - 1) ∨ (R + 1 = r ∧ C = c) ∨ (R + 1 = r ∧ C = c + 1))
      (min (R + 3 - r) 7 = 2 ∧ min (C + 3 - c) 7 = 2 ∨ min (R + 3 - r) 7 = 2 ∧ min (C + 3 - c) 7 = 3 ∨
        min (R + 3 - r) 7 = 2 ∧ min (C + 3 - c) 7 = 4) (by omega)]
  rw [ind_congr ((R + 1 = r ∧ C + 1 = c - 1) ∨ (R + 1 = r ∧ C + 1 = c) ∨ (R + 1 = r ∧ C + 1 = c + 1))
      (min (R + 3 - r) 7 = 2 ∧ min (C + 3 - c) 7 = 1 ∨ min (R + 3 - r) 7 = 2 ∧ min (C + 3 - c) 7 = 2 ∨
        min (R + 3 - r) 7 = 2 ∧ min (C + 3 - c) 7 = 3) (by omega)]
  rw [decide_eq_decide.mpr
    (show ((R = r ∧ C = c - 1) ∨ (R = r ∧ C = c) ∨ (R = r ∧ C = c + 1)) ↔
      (min (R + 3 - r) 7 = 3 ∧ min (C + 3 - c) 7 = 2 ∨ min (R + 3 - r) 7 = 3 ∧ min (C + 3 - c) 7 = 3 ∨
        min (R + 3 - r) 7 = 3 ∧ min (C + 3 - c) 7 = 4) by omega)]
  rw [decide_eq_decide.mpr
    (show ((R = r - 1 ∧ C = c) ∨ (R = r ∧ C = c) ∨ (R = r + 1 ∧ C = c)) ↔
      (min (R + 3 - r) 7 = 2 ∧ min (C + 3 - c) 7 = 3 ∨ min (R + 3 - r) 7 = 3 ∧ min (C + 3 - c) 7 = 3 ∨
        min (R + 3 - r) 7 = 4 ∧ min (C + 3 - c) 7 = 3) by omega)]
  exact offsets_stepH (min (R + 3 - r) 7) (min (C + 3 - c) 7) (by omega) (by omega)

/-- The Conway step for a cell `(R, C)` of the vertical-blinker grid,
stated over plain coordinates: the neighbor-count indicators are those of
`lnc_three` at the triple `(r-1, c), (r, c), (r+1, c)`. -/
theorem blinkerV_step (r c R C : Nat) (hr2 : 2 ≤ r) (hc2 : 2 ≤ c) :
    Universe.nextState
      (decide ((R = r - 1 ∧ C = c) ∨ (R = r ∧ C = c) ∨ (R = r + 1 ∧ C = c)))
      (ind ((R = r - 1 + 1 ∧ C = c + 1) ∨ (R = r + 1 ∧ C = c + 1) ∨ (R = r + 1 + 1 ∧ C = c + 1)) +
        ind ((R = r - 1 + 1 ∧ C = c) ∨ (R = r + 1 ∧ C = c) ∨ (R = r + 1 + 1 ∧ C = c)) +
        ind ((R = r - 1 + 1 ∧ C + 1 = c) ∨ (R = r + 1 ∧ C + 1 = c) ∨ (R = r + 1 + 1 ∧ C + 1 = c)) +
        ind ((R = r - 1 ∧ C = c + 1) ∨ (R = r ∧ C = c + 1) ∨ (R = r + 1 ∧ C = c + 1)) +
        ind ((R = r - 1 ∧ C + 1 = c) ∨ (R = r ∧ C + 1 = c) ∨ (R = r + 1 ∧ C + 1 = c)) +
        ind ((R + 1 = r - 1 ∧ C = c + 1) ∨ (R + 1 = r ∧ C = c + 1) ∨ (R + 1 = r + 1 ∧ C = c + 1)) +
        ind ((R + 1 = r - 1 ∧ C = c) ∨ (R + 1 = r ∧ C = c) ∨ (R + 1 = r + 1 ∧ C = c)) +
        ind ((R + 1 = r - 1 ∧ C + 1 = c) ∨ (R + 1 = r ∧ C + 1 = c) ∨ (R + 1 = r + 1 ∧ C + 1 = c))) =
    decide ((R = r ∧ C = c - 1) ∨ (R = r ∧ C = c) ∨ (R = r ∧ C = c + 1)) := by
  rw [ind_congr ((R = r - 1 + 1 ∧ C = c + 1) ∨ (R = r + 1 ∧ C = c + 1) ∨ (R = r + 1 + 1 ∧ C = c + 1))
      (min (R + 3 - r) 7 = 3 ∧ min (C + 3 - c) 7 = 4 ∨ min (R + 3 - r) 7 = 4 ∧ min (C + 3 - c) 7 = 4 ∨
        min (R + 3 - r) 7 = 5 ∧ min (C + 3 - c) 7 = 4) (by omega)]
  rw [ind_congr ((R = r - 1 + 1 ∧ C = c) ∨ (R = r + 1 ∧ C = c) ∨ (R = r + 1 + 1 ∧ C = c))
      (min (R + 3 - r) 7 = 3 ∧ min (C + 3 - c) 7 = 3 ∨ min (R + 3 - r) 7 = 4 ∧ min (C + 3 - c) 7 = 3 ∨
        min (R + 3 - r) 7 = 5 ∧ min (C + 3 - c) 7 = 3) (by omega)]
  rw [ind_congr ((R = r - 1 + 1 ∧ C + 1 = c) ∨ (R = r + 1 ∧ C + 1 = c) ∨ (R = r + 1 + 1 ∧ C + 1 = c))
      (min (R + 3 - r) 7 = 3 ∧ min (C + 3 - c) 7 = 2 ∨ min (R + 3 - r) 7 = 4 ∧ min (C + 3 - c) 7 = 2 ∨
        min (R + 3 - r) 7 = 5 ∧ min (C + 3 - c) 7 = 2) (by omega)]
  rw [ind_congr ((R = r - 1 ∧ C = c + 1) ∨ (R = r ∧ C = c + 1) ∨ (R = r + 1 ∧ C = c + 1))
      (min (R + 3 - r) 7 = 2 ∧ min (C + 3 - c) 7 = 4 ∨ min (R + 3 - r) 7 = 3 ∧ min (C + 3 - c) 7 = 4 ∨
        min (R + 3 - r) 7 = 4 ∧ min (C + 3 - c) 7 = 4) (by omega)]
  rw [ind_congr ((R = r - 1 ∧ C + 1 = c) ∨ (R = r ∧ C + 1 = c) ∨ (R = r + 1 ∧ C + 1 = c))
      (min (R + 3 - r) 7 = 2 ∧ min (C + 3 - c) 7 = 2 ∨ min (R + 3 - r) 7 = 3 ∧ min (C + 3 - c) 7 = 2 ∨
        min (R + 3 - r) 7 = 4 ∧ min (C + 3 - c) 7 = 2) (by omega)]
  rw [ind_congr ((R + 1 = r - 1 ∧ C = c + 1) ∨ (R + 1 = r ∧ C = c + 1) ∨ (R + 1 = r + 1 ∧ C = c + 1))
      (min (R + 3 - r) 7 = 1 ∧ min (C + 3 - c) 7 = 4 ∨ min (R + 3 - r) 7 = 2 ∧ min (C + 3 - c) 7 = 4 ∨
        min (R + 3 - r) 7 = 3 ∧ min (C + 3 - c) 7 = 4) (by omega)]
  rw [ind_congr ((R + 1 = r - 1 ∧ C = c) ∨ (R + 1 = r ∧ C = c) ∨ (R + 1 = r + 1 ∧ C = c))
      (min (R + 3 - r) 7 = 1 ∧ min (C + 3 - c) 7 = 3 ∨ min (R + 3 - r) 7 = 2 ∧ min (C + 3 - c) 7 = 3 ∨
        min (R + 3 - r) 7 = 3 ∧ min (C + 3 - c) 7 = 3) (by omega)]
  rw [ind_congr ((R + 1 = r - 1 ∧ C + 1 = c) ∨ (R + 1 = r ∧ C + 1 = c) ∨ (R + 1 = r + 1 ∧ C + 1 = c))
      (min (R + 3 - r) 7 = 1 ∧ min (C + 3 - c) 7 = 2 ∨ min (R + 3 - r) 7 = 2 ∧ min (C + 3 - c) 7 = 2 ∨
        min (R + 3 - r) 7 = 3 ∧ min (C + 3 - c) 7 = 2) (by omega)]
  rw [decide_eq_decide.mpr
    (show ((R = r - 1 ∧ C = c) ∨ (R = r ∧ C = c) ∨ (R = r + 1 ∧ C = c)) ↔
      (min (R + 3 - r) 7 = 2 ∧ min (C + 3 - c) 7 = 3 ∨ min (R + 3 - r) 7 = 3 ∧ min (C + 3 - c) 7 = 3 ∨
        min (R + 3 - r) 7 = 4 ∧ min (C + 3 - c) 7 = 3) by omega)]
  rw [decide_eq_decide.mpr
    (show ((R = r ∧ C = c - 1) ∨ (R = r ∧ C = c) ∨ (R = r ∧ C = c + 1)) ↔
      (min (R + 3 - r) 7 = 3 ∧ min (C + 3 - c) 7 = 2 ∨ min (R + 3 - r) 7 = 3 ∧ min (C + 3 - c) 7 = 3 ∨
        min (R + 3 - r) 7 = 3 ∧ min (C + 3 - c) 7 = 4) by omega)]
  exact offsets_stepV (min (R + 3 - r) 7) (min (C + 3 - c) 7) (by omega) (by omega)

end BlinkerTick

section BlinkerClaim

/-- One tick turns an interior horizontal blinker into the vertical one. -/
theorem tick_blinkerH (u : Universe) (w h r c : Nat)
    (hw : u.width = w) (hh : u.height = h)
    (hr2 : 2 ≤ r) (hrh : r + 2 < h) (hc2 : 2 ≤ c) (hcw : c + 2 < w)
    (hcells : u.cells = blinkerH w h r c) :
    u.tick.cells = blinkerV w h r c := by
  subst hw
  subst hh
  have hlen : u.cells.length = u.width * u.height := by
    rw [hcells]
    unfold blinkerH
    rw [List.length_map, List.length_range]
  have hlenV : (blinkerV u.width u.height r c).length = u.width * u.height := by
    unfold blinkerV
    rw [List.length_map, List.length_range]
  apply List.ext_getElem (by rw [tick_cells_length, hlen, hlenV])
  intro i h1 h2
  have hiw : i < u.width * u.height := by
    rw [tick_cells_length, hlen] at h1
    exact h1
  rw [← List.getD_eq_getElem _ false h1, ← List.getD_eq_getElem _ false h2]
  have hw0 : 0 < u.width := by omega
  have hrr : i / u.width < u.height := by
    apply (Nat.div_lt_iff_lt_mul hw0).mpr
    rw [Nat.mul_comm]
    exact hiw
  have hcc : i % u.width < u.width := Nat.mod_lt _ hw0
  have hcellsPt : ∀ j, j < u.width * u.height →
      u.getCell j = decide (j = r * u.width + (c - 1) ∨ j = r * u.width + c ∨
        j = r * u.width + (c + 1)) := by
    intro j hj
    show u.cells.getD j false = _
    rw [hcells]
    unfold blinkerH
    exact getD_map_range _ _ _ hj
  rw [tick_getD u i (by omega) hlen, hcellsPt i hiw]
  rw [lnc_three u r (c - 1) r c r (c + 1) (i / u.width) (i % u.width)
    (by omega) (by omega) (by omega) (by omega)
    (by omega) (by omega) (by omega) (by omega)
    (by omega) (by omega) (by omega) (by omega)
    hrr hcc hcellsPt]
  rw [show (blinkerV u.width u.height r c).getD i false =
      decide (i = (r - 1) * u.width + c ∨ i = r * u.width + c ∨
        i = (r + 1) * u.width + c) from by
    unfold blinkerV
    exact getD_map_range _ _ _ hiw]
  rw [decide_eq_decide.mpr (or_congr (index_coords_iff u.width i r (c - 1) (by omega))
    (or_congr (index_coords_iff u.width i r c (by omega))
      (index_coords_iff u.width i r (c + 1) (by omega))))]
  rw [decide_eq_decide.mpr (or_congr (index_coords_iff u.width i (r - 1) c (by omega))
    (or_congr (index_coords_iff u.width i r c (by omega))
      (index_coords_iff u.width i (r + 1) c (by omega))))]
  exact blinkerH_step r c (i / u.width) (i % u.width) hr2 hc2

/-- One tick turns an interior vertical blinker back into the horizontal
one. -/
theorem tick_blinkerV (u : Universe) (w h r c : Nat)
    (hw : u.width = w) (hh : u.height = h)
    (hr2 : 2 ≤ r) (hrh : r + 2 < h) (hc2 : 2 ≤ c) (hcw : c + 2 < w)
    (hcells : u.cells = blinkerV w h r c) :
    u.tick.cells = blinkerH w h r c := by
  subst hw
  subst hh
  have hlen : u.cells.length = u.width * u.height := by
    rw [hcells]
    unfold blinkerV
    rw [List.length_map, List.length_range]
  have hlenH : (blinkerH u.width u.height r c).length = u.width * u.height := by
    unfold blinkerH
    rw [List.length_map, List.length_range]
  apply List.ext_getElem (by rw [tick_cells_length, hlen, hlenH])
  intro i h1 h2
  have hiw : i < u.width * u.height := by
    rw [tick_cells_length, hlen] at h1
    exact h1
  rw [← List.getD_eq_getElem _ false h1, ← List.getD_eq_getElem _ false h2]
  have hw0 : 0 < u.width := by omega
  have hrr : i / u.width < u.height := by
    apply (Nat.div_lt_iff_lt_mul hw0).mpr
    rw [Nat.mul_comm]
    exact hiw
  have hcc : i % u.width < u.width := Nat.mod_lt _ hw0
  have hcellsPt : ∀ j, j < u.width * u.height →
      u.getCell j = decide (j = (r - 1) * u.width + c ∨ j = r * u.width + c ∨
        j = (r + 1) * u.width + c) := by
    intro j hj
    show u.cells.getD j false = _
    rw [hcells]
    unfold blinkerV
    exact getD_map_range _ _ _ hj
  rw [tick_getD u i (by omega) hlen, hcellsPt i hiw]
  rw [lnc_three u (r - 1) c r c (r + 1) c (i / u.width) (i % u.width)
    (by omega) (by omega) (by omega) (by omega)
    (by omega) (by omega) (by omega) (by omega)
    (by omega) (by omega) (by omega) (by omega)
    hrr hcc hcellsPt]
  rw [show (blinkerH u.width u.height r c).getD i false =
      decide (i = r * u.width + (c - 1) ∨ i = r * u.width + c ∨
        i = r * u.width + (c + 1)) from by
    unfold blinkerH
    exact getD_map_range _ _ _ hiw]
  rw [decide_eq_decide.mpr (or_congr (index_coords_iff u.width i (r - 1) c (by omega))
    (or_congr (index_coords_iff u.width i r c (by omega))
      (index_coords_iff u.width i (r + 1) c (by omega))))]
  rw [decide_eq_decide.mpr (or_congr (index_coords_iff u.width i r (c - 1) (by omega))
    (or_congr (index_coords_iff u.width i r c (by omega))
      (index_coords_iff u.width i r (c + 1) (by omega))))]
  exact blinkerV_step r c (i / u.width) (i % u.width) hr2 hc2

/-- C7: on a toroidal grid of width and height at least 5, a horizontal
blinker at `(r, c-1), (r, c), (r, c+1)`, placed away from the wrapping
edges, becomes the vertical blinker `(r-1, c), (r, c), (r+1, c)` after
one `tick()`, and a second `tick()` restores the original grid exactly. -/
theorem C7_blinker_oscillates (u : Universe) (w h r c : Nat)
    (h5w : 5 ≤ w) (h5h : 5 ≤ h)
    (hw : u.width = w) (hh : u.height = h)
    (hr2 : 2 ≤ r) (hrh : r + 2 < h) (hc2 : 2 ≤ c) (hcw : c + 2 < w)
    (hcells : u.cells = blinkerH w h r c) :
    u.tick.cells = blinkerV w h r c ∧ u.tick.tick.cells = u.cells := by
  have h1 := tick_blinkerH u w h r c hw hh hr2 hrh hc2 hcw hcells
  refine ⟨h1, ?_⟩
  have h2 := tick_blinkerV u.tick w h r c
    (by rw [tick_width]; exact hw) (by rw [tick_height]; exact hh)
    hr2 hrh hc2 hcw h1
  rw [h2, hcells]

theorem C7_blinker_oscillates_witness :
    (Universe.mk 5 5 (blinkerH 5 5 2 2) (blinkerH 5 5 2 2)).tick.cells =
        blinkerV 5 5 2 2 ∧
      (Universe.mk 5 5 (blinkerH 5 5 2 2) (blinkerH 5 5 2 2)).tick.tick.cells =
        (Universe.mk 5 5 (blinkerH 5 5 2 2) (blinkerH 5 5 2 2)).cells :=
  C7_blinker_oscillates (Universe.mk 5 5 (blinkerH 5 5 2 2) (blinkerH 5 5 2 2))
    5 5 2 2 (by decide) (by decide) rfl rfl (by decide) (by decide) (by decide)
    (by decide) rfl

end BlinkerClaim
